import Mathlib

/-!
Verification development for the fashion-products CRUD service (`app.js`,
the enhanced server variant with timestamps and `field`/`received` error
bodies).  The route handlers for GET /api/products/:id, POST /api/products,
PUT /api/products/:id and DELETE /api/products/:id are embedded shallowly:

* JSON field values are modelled by `FieldVal` (strings, numbers as
  rationals, booleans, null, and arrays of strings).  JavaScript doubles
  are modelled as exact rationals; double rounding, `Infinity`, and the
  exponent-form printing of very large numbers are outside the model.
* A request body is a record of optional field values (`Body`); a key that
  is absent from the JSON object is `none`, an explicit `null` is
  `some FieldVal.null`.
* `parseFloatStr` / `parseIntStr` follow the ECMAScript `parseFloat` /
  `parseInt` leading-segment semantics (whitespace skip, optional sign,
  decimal with optional fraction and exponent for `parseFloat`; decimal or
  0x-hexadecimal for `parseInt`); a NaN result is `none`.
* Each handler returns its HTTP outcome together with the store state
  after the request; a JavaScript `TypeError` escaping to the handler's
  catch block (e.g. calling `.trim()` on a truthy non-string title) is the
  `thrown` outcome (HTTP 500).
* `Date` calls inside one handler invocation are modelled by the single
  `now` parameter; timestamps are abstract instants (`Nat`).
-/

/-- A JSON value as it can appear in a request-body field.  Arrays are
restricted to arrays of strings (the shape the `images` field documents);
nested objects are not modelled. -/
inductive FieldVal where
  | str (s : String)
  | num (q : ℚ)
  | bool (b : Bool)
  | null
  | arr (xs : List String)
  deriving DecidableEq, Repr

/-- JavaScript truthiness of a defined value: empty strings, `0`, `false`
and `null` are falsy; any array is truthy. -/
def FieldVal.truthy : FieldVal → Bool
  | .str s => s != ""
  | .num q => q != 0
  | .bool b => b
  | .null => false
  | .arr _ => true

/-- Truthiness of a possibly-absent value (`undefined` is falsy). -/
def truthyOpt : Option FieldVal → Bool
  | none => false
  | some v => v.truthy

/-- The request body of a create or update request: each product field is
either absent (`none`) or carries a JSON value. -/
structure Body where
  title : Option FieldVal := none
  description : Option FieldVal := none
  price : Option FieldVal := none
  discountPercentage : Option FieldVal := none
  rating : Option FieldVal := none
  stock : Option FieldVal := none
  brand : Option FieldVal := none
  category : Option FieldVal := none
  thumbnail : Option FieldVal := none
  images : Option FieldVal := none
  deriving DecidableEq, Repr

/-- The empty request body: every field absent. -/
def emptyBody : Body := {}

/-- A stored product record.  `title` is always a string (it went through
`.trim()`), the numeric fields went through `parseFloat`/`parseInt`, while
`description`, `brand`, `category` and `thumbnail` are stored as received
(the code only applies the `|| ''` default on create).  The seed products
carry no timestamps, so `createdAt`/`updatedAt` are optional. -/
structure Product where
  id : Nat
  title : String
  description : FieldVal
  price : ℚ
  discountPercentage : ℚ
  rating : ℚ
  stock : ℤ
  brand : FieldVal
  category : FieldVal
  thumbnail : FieldVal
  images : List String
  createdAt : Option Nat := none
  updatedAt : Option Nat := none
  deriving DecidableEq, Repr

/-- The seed collection the server starts with. -/
def products : List Product := [
  { id := 1
    title := "Classic Denim Jacket"
    description := .str "A timeless denim jacket that never goes out of style"
    price := 59.99
    discountPercentage := 10.5
    rating := 4.8
    stock := 45
    brand := .str "Levi\x27s"
    category := .str "clothing"
    thumbnail := .str "https://i.dummyjson.com/data/products/1/thumbnail.jpg"
    images := ["https://i.dummyjson.com/data/products/1/1.jpg",
               "https://i.dummyjson.com/data/products/1/2.jpg",
               "https://i.dummyjson.com/data/products/1/3.jpg"] },
  { id := 2
    title := "Designer Handbag"
    description := .str "Elegant designer handbag with premium leather finish"
    price := 129.99
    discountPercentage := 15
    rating := 4.6
    stock := 20
    brand := .str "Michael Kors"
    category := .str "accessories"
    thumbnail := .str "https://i.dummyjson.com/data/products/2/thumbnail.jpg"
    images := ["https://i.dummyjson.com/data/products/2/1.jpg",
               "https://i.dummyjson.com/data/products/2/2.jpg"] },
  { id := 3
    title := "Running Shoes"
    description := .str "Lightweight running shoes with cushioned soles"
    price := 89.99
    discountPercentage := 5
    rating := 4.5
    stock := 30
    brand := .str "Nike"
    category := .str "footwear"
    thumbnail := .str "https://i.dummyjson.com/data/products/3/thumbnail.jpg"
    images := ["https://i.dummyjson.com/data/products/3/1.jpg",
               "https://i.dummyjson.com/data/products/3/2.jpg",
               "https://i.dummyjson.com/data/products/3/3.jpg"] },
  { id := 4
    title := "Summer Dress"
    description := .str "Light and flowy summer dress with floral pattern"
    price := 45.99
    discountPercentage := 12
    rating := 4.7
    stock := 25
    brand := .str "Zara"
    category := .str "clothing"
    thumbnail := .str "https://i.dummyjson.com/data/products/4/thumbnail.jpg"
    images := ["https://i.dummyjson.com/data/products/4/1.jpg",
               "https://i.dummyjson.com/data/products/4/2.jpg"] },
  { id := 5
    title := "Leather Wallet"
    description := .str "Genuine leather wallet with multiple card slots"
    price := 35.99
    discountPercentage := 8
    rating := 4.4
    stock := 50
    brand := .str "Fossil"
    category := .str "accessories"
    thumbnail := .str "https://i.dummyjson.com/data/products/5/thumbnail.jpg"
    images := ["https://i.dummyjson.com/data/products/5/1.jpg"] }
]

/-- JavaScript `String.prototype.trim`: remove leading and trailing
whitespace.  (JavaScript also strips a few exotic Unicode spaces; only the
ASCII whitespace characters are modelled.) -/
def jsTrim (s : String) : String :=
  String.mk (((s.data.dropWhile Char.isWhitespace).reverse.dropWhile Char.isWhitespace).reverse)

/-! ## ECMAScript numeric parsing -/

/-- Numeric value of a decimal digit character. -/
def digitVal (c : Char) : ℕ := c.toNat - '0'.toNat

/-- Natural number denoted by a list of decimal digits. -/
def natOfDigits (ds : List Char) : ℕ := ds.foldl (fun a c => 10 * a + digitVal c) 0

/-- Hexadecimal digit test. -/
def isHexDigit (c : Char) : Bool :=
  c.isDigit || ('a' ≤ c && c ≤ 'f') || ('A' ≤ c && c ≤ 'F')

/-- Numeric value of a hexadecimal digit character. -/
def hexVal (c : Char) : ℕ :=
  if c.isDigit then c.toNat - '0'.toNat
  else if 'a' ≤ c && c ≤ 'f' then c.toNat - 'a'.toNat + 10
  else c.toNat - 'A'.toNat + 10

/-- Natural number denoted by a list of hexadecimal digits. -/
def natOfHexDigits (ds : List Char) : ℕ := ds.foldl (fun a c => 16 * a + hexVal c) 0

/-- Apply an ECMAScript exponent part (`e`/`E`, optional sign, digits) to an
already-parsed mantissa; a malformed exponent part is ignored, as
`parseFloat` only consumes the longest valid leading segment. -/
def applyExp (q : ℚ) (cs : List Char) : ℚ :=
  match cs with
  | 'e' :: rest => applyExpDigits q rest
  | 'E' :: rest => applyExpDigits q rest
  | _ => q
where
  applyExpDigits (q : ℚ) (rest : List Char) : ℚ :=
    match rest with
    | '+' :: r =>
        let ds := r.takeWhile Char.isDigit
        if ds = [] then q else q * 10 ^ natOfDigits ds
    | '-' :: r =>
        let ds := r.takeWhile Char.isDigit
        if ds = [] then q else q / 10 ^ natOfDigits ds
    | r =>
        let ds := r.takeWhile Char.isDigit
        if ds = [] then q else q * 10 ^ natOfDigits ds

/-- Unsigned part of `parseFloat`: digits with an optional fraction and
exponent; `none` when no digit is found (NaN). -/
def parseFloatCore (cs : List Char) : Option ℚ :=
  let ip := cs.takeWhile Char.isDigit
  let r1 := cs.dropWhile Char.isDigit
  match r1 with
  | '.' :: r2 =>
      let fp := r2.takeWhile Char.isDigit
      let r3 := r2.dropWhile Char.isDigit
      if ip = [] ∧ fp = [] then none
      else some (applyExp ((natOfDigits ip : ℚ) + (natOfDigits fp : ℚ) / 10 ^ fp.length) r3)
  | _ => if ip = [] then none else some (applyExp (natOfDigits ip : ℚ) r1)

/-- ECMAScript `parseFloat` on a character list: skip leading whitespace,
optional sign, then the longest valid decimal literal; `none` is NaN.
(`Infinity` is not representable in `ℚ` and is treated as NaN here.) -/
def parseFloatList (cs : List Char) : Option ℚ :=
  match cs.dropWhile Char.isWhitespace with
  | '+' :: r => parseFloatCore r
  | '-' :: r => (parseFloatCore r).map Neg.neg
  | r => parseFloatCore r

/-- ECMAScript `parseFloat` on a string. -/
def parseFloatStr (s : String) : Option ℚ := parseFloatList s.data

/-- Unsigned part of `parseInt`: either a `0x`/`0X` hexadecimal literal or
a run of decimal digits; `none` when no digit is found (NaN). -/
def parseIntCore (cs : List Char) : Option ℕ :=
  match cs with
  | '0' :: 'x' :: r =>
      let ds := r.takeWhile isHexDigit
      if ds = [] then none else some (natOfHexDigits ds)
  | '0' :: 'X' :: r =>
      let ds := r.takeWhile isHexDigit
      if ds = [] then none else some (natOfHexDigits ds)
  | r =>
      let ds := r.takeWhile Char.isDigit
      if ds = [] then none else some (natOfDigits ds)

/-- ECMAScript `parseInt` on a character list: skip leading whitespace,
optional sign, then the longest leading integer literal; `none` is NaN. -/
def parseIntList (cs : List Char) : Option ℤ :=
  match cs.dropWhile Char.isWhitespace with
  | '+' :: r => (parseIntCore r).map fun n => (n : ℤ)
  | '-' :: r => (parseIntCore r).map fun n => -(n : ℤ)
  | r => (parseIntCore r).map fun n => (n : ℤ)

/-- ECMAScript `parseInt` on a string. -/
def parseIntStr (s : String) : Option ℤ := parseIntList s.data

/-- Truncation toward zero, which is what `parseInt` performs on a finite
numeric argument (via its decimal printing). -/
def ratTrunc (q : ℚ) : ℤ := if q < 0 then -((-q).floor) else q.floor

/-- `parseFloat` applied to a defined JSON value (the argument is first
converted to a string by JavaScript; `String(array)` joins the elements
with commas, `"true"`, `"false"` and `"null"` parse to NaN). -/
def parseFloatVal : FieldVal → Option ℚ
  | .num q => some q
  | .str s => parseFloatStr s
  | .bool _ => none
  | .null => none
  | .arr xs => parseFloatStr (String.intercalate "," xs)

/-- `parseInt` applied to a defined JSON value. -/
def parseIntVal : FieldVal → Option ℤ
  | .num q => some (ratTrunc q)
  | .str s => parseIntStr s
  | .bool _ => none
  | .null => none
  | .arr xs => parseIntStr (String.intercalate "," xs)

/-! ## Validation checks (one per field, in source order) -/

/-- A validation outcome: a 400 response body (message, field, optional raw
received value) or a thrown TypeError (500). -/
inductive VErr where
  | bad (message field : String) (received : Option FieldVal)
  | thrown
  deriving DecidableEq, Repr

/-- Create-time title check: `!title || title.trim() === ''` fails with
the 400 body `{message, field: "title"}` (no `received` key); calling
`.trim()` on a truthy non-string throws. -/
def checkTitleCreate (t : Option FieldVal) : Option VErr :=
  if truthyOpt t then
    match t with
    | some (.str s) =>
        if jsTrim s = "" then some (.bad "Title is required and cannot be empty" "title" none)
        else none
    | _ => some .thrown
  else some (.bad "Title is required and cannot be empty" "title" none)

/-- Update-time title check: only validated when the key is present. -/
def checkTitleUpdate (t : Option FieldVal) : Option VErr :=
  match t with
  | none => none
  | some v =>
    if v.truthy then
      match v with
      | .str s =>
          if jsTrim s = "" then some (.bad "Title cannot be empty" "title" none)
          else none
      | _ => some .thrown
    else some (.bad "Title cannot be empty" "title" none)

/-- Create-time price check: `price === undefined || price === null` is the
missing-field failure (no `received` key); otherwise `parseFloat` must give
a number that is not `< 0`. -/
def checkPriceCreate (pv : Option FieldVal) : Option VErr :=
  match pv with
  | none => some (.bad "Price is required" "price" none)
  | some .null => some (.bad "Price is required" "price" none)
  | some v =>
    match parseFloatVal v with
    | none => some (.bad "Price must be a valid positive number" "price" (some v))
    | some q =>
        if q < 0 then some (.bad "Price must be a valid positive number" "price" (some v))
        else none

/-- Update-time price check: only when present; explicit `null` is not
special-cased here, so it reaches `parseFloat` and fails as NaN. -/
def checkPriceUpdate (pv : Option FieldVal) : Option VErr :=
  match pv with
  | none => none
  | some v =>
    match parseFloatVal v with
    | none => some (.bad "Price must be a valid positive number" "price" (some v))
    | some q =>
        if q < 0 then some (.bad "Price must be a valid positive number" "price" (some v))
        else none

/-- Stock check (identical in create and update): if present, `parseInt`
must give an integer that is not `< 0`. -/
def checkStock (sv : Option FieldVal) : Option VErr :=
  match sv with
  | none => none
  | some v =>
    match parseIntVal v with
    | none => some (.bad "Stock must be a valid non-negative integer" "stock" (some v))
    | some n =>
        if n < 0 then some (.bad "Stock must be a valid non-negative integer" "stock" (some v))
        else none

/-- Discount check (identical in create and update): if present,
`parseFloat` must give a number in [0, 100]. -/
def checkDiscount (dv : Option FieldVal) : Option VErr :=
  match dv with
  | none => none
  | some v =>
    match parseFloatVal v with
    | none => some (.bad "Discount percentage must be a number between 0 and 100" "discountPercentage" (some v))
    | some q =>
        if q < 0 ∨ q > 100 then
          some (.bad "Discount percentage must be a number between 0 and 100" "discountPercentage" (some v))
        else none

/-- Rating check (identical in create and update): if present, `parseFloat`
must give a number in [0, 5]. -/
def checkRating (rv : Option FieldVal) : Option VErr :=
  match rv with
  | none => none
  | some v =>
    match parseFloatVal v with
    | none => some (.bad "Rating must be a number between 0 and 5" "rating" (some v))
    | some q =>
        if q < 0 ∨ q > 5 then
          some (.bad "Rating must be a number between 0 and 5" "rating" (some v))
        else none

/-- The create handler's validation sequence, in source order: title,
price, stock, discountPercentage, rating; the first failure wins. -/
def createChecks (b : Body) : Option VErr :=
  match checkTitleCreate b.title with
  | some e => some e
  | none =>
    match checkPriceCreate b.price with
    | some e => some e
    | none =>
      match checkStock b.stock with
      | some e => some e
      | none =>
        match checkDiscount b.discountPercentage with
        | some e => some e
        | none => checkRating b.rating

/-- The update handler's validation sequence, in source order: title,
price, stock, discountPercentage, rating; the first failure wins. -/
def updChecks (b : Body) : Option VErr :=
  match checkTitleUpdate b.title with
  | some e => some e
  | none =>
    match checkPriceUpdate b.price with
    | some e => some e
    | none =>
      match checkStock b.stock with
      | some e => some e
      | none =>
        match checkDiscount b.discountPercentage with
        | some e => some e
        | none => checkRating b.rating

/-! ## Handlers -/

/-- Largest id in the collection (0 for the empty collection);
`Math.max(...products.map(p => p.id))`. -/
def maxIdOf (ps : List Product) : Nat := ps.foldr (fun p m => max p.id m) 0

/-- The `x || ''` defaulting used for `description`, `brand`, `category`
and `thumbnail` on create: a falsy or absent value becomes `''`. -/
def jsOrEmptyStr (v : Option FieldVal) : FieldVal :=
  match v with
  | some w => if w.truthy then w else .str ""
  | none => .str ""

/-- The `x ? parseFloat(x) : 0` defaulting used for `discountPercentage`
and `rating` on create. -/
def jsTruthyFloat (v : Option FieldVal) : ℚ :=
  match v with
  | some w => if w.truthy then (parseFloatVal w).getD 0 else 0
  | none => 0

/-- The `x ? parseInt(x) : 0` defaulting used for `stock` on create. -/
def jsTruthyInt (v : Option FieldVal) : ℤ :=
  match v with
  | some w => if w.truthy then (parseIntVal w).getD 0 else 0
  | none => 0

/-- The title string of a validated create body (validation guarantees the
title is a string, so the fallback branch is unreachable). -/
def titleString (t : Option FieldVal) : String :=
  match t with
  | some (.str s) => s
  | _ => ""

/-- The `productToCreate` object built by the create handler after
validation passed: fresh id, trimmed title, defaults for missing optional
fields, both timestamps set to the current instant. -/
def buildProduct (ps : List Product) (b : Body) (now : Nat) : Product :=
  { id := (if 0 < ps.length then maxIdOf ps else 0) + 1
    title := jsTrim (titleString b.title)
    description := jsOrEmptyStr b.description
    price := (match b.price with | some v => (parseFloatVal v).getD 0 | none => 0)
    discountPercentage := jsTruthyFloat b.discountPercentage
    rating := jsTruthyFloat b.rating
    stock := jsTruthyInt b.stock
    brand := jsOrEmptyStr b.brand
    category := jsOrEmptyStr b.category
    thumbnail := jsOrEmptyStr b.thumbnail
    images := (match b.images with | some (.arr xs) => xs | _ => [])
    createdAt := some now
    updatedAt := some now }

/-- Outcome of POST /api/products. -/
inductive CreateResult where
  | badRequest (message field : String) (received : Option FieldVal)
  | created (product : Product)
  | thrown
  deriving DecidableEq, Repr

/-- Whether a create outcome is the 201 success. -/
def CreateResult.isCreated : CreateResult → Bool
  | .created _ => true
  | _ => false

/-- POST /api/products: validate in order, then build the new record and
append it.  The pair is (HTTP outcome, store after the request). -/
def createProduct (ps : List Product) (b : Body) (now : Nat) :
    CreateResult × List Product :=
  match createChecks b with
  | some (VErr.bad m f r) => (.badRequest m f r, ps)
  | some VErr.thrown => (.thrown, ps)
  | none =>
    let p := buildProduct ps b now
    (.created p, ps ++ [p])

/-- Outcome of GET /api/products/:id. -/
inductive GetResult where
  | invalidId (received : String)
  | notFound (availableIds : List Nat)
  | ok (product : Product)
  deriving DecidableEq, Repr

/-- GET /api/products/:id: parse the id path segment, reject NaN or a value
that is not positive, then scan the collection.  The handler never mutates
the store. -/
def getById (ps : List Product) (idStr : String) : GetResult :=
  match parseIntStr idStr with
  | none => .invalidId idStr
  | some id =>
    if id ≤ 0 then .invalidId idStr
    else
      match ps.find? (fun p => ((p.id : ℤ) == id)) with
      | none => .notFound (ps.map Product.id)
      | some p => .ok p

/-- The `{...products[productIndex], ...sanitizedUpdates}` merge of the
update handler: only keys present in the body are copied (title trimmed,
numerics re-parsed, `images` only when it is an array), `updatedAt` is
refreshed, `id` and `createdAt` are untouched. -/
def sanitizedMerge (old : Product) (b : Body) (now : Nat) : Product :=
  { old with
    title := (match b.title with | some (.str s) => jsTrim s | some _ => old.title | none => old.title)
    description := b.description.getD old.description
    price := (match b.price with | some v => (parseFloatVal v).getD old.price | none => old.price)
    discountPercentage :=
      (match b.discountPercentage with
       | some v => (parseFloatVal v).getD old.discountPercentage
       | none => old.discountPercentage)
    rating := (match b.rating with | some v => (parseFloatVal v).getD old.rating | none => old.rating)
    stock := (match b.stock with | some v => (parseIntVal v).getD old.stock | none => old.stock)
    brand := b.brand.getD old.brand
    category := b.category.getD old.category
    thumbnail := b.thumbnail.getD old.thumbnail
    images := (match b.images with | some (.arr xs) => xs | _ => old.images)
    updatedAt := some now }

/-- Replace the first record with the given id
(`products[productIndex] = merged` after `findIndex`). -/
def setFirstById : List Product → ℤ → Product → List Product
  | [], _, _ => []
  | p :: rest, id, newP =>
    if (p.id : ℤ) == id then newP :: rest else p :: setFirstById rest id newP

/-- Remove the first record with the given id (`products.splice(index, 1)`
after `findIndex`). -/
def removeFirstById : List Product → ℤ → List Product
  | [], _ => []
  | p :: rest, id =>
    if (p.id : ℤ) == id then rest else p :: removeFirstById rest id

/-- Outcome of PUT /api/products/:id. -/
inductive UpdateResult where
  | invalidId (received : String)
  | notFound (availableIds : List Nat)
  | badRequest (message field : String) (received : Option FieldVal)
  | ok (product : Product)
  | thrown
  deriving DecidableEq, Repr

/-- Whether an update outcome is the 200 success. -/
def UpdateResult.isOk : UpdateResult → Bool
  | .ok _ => true
  | _ => false

/-- PUT /api/products/:id: id validation, existence check, field
validation, then the sanitized merge — in that order, so every failure
leaves the store untouched. -/
def updateProduct (ps : List Product) (idStr : String) (b : Body) (now : Nat) :
    UpdateResult × List Product :=
  match parseIntStr idStr with
  | none => (.invalidId idStr, ps)
  | some id =>
    if id ≤ 0 then (.invalidId idStr, ps)
    else
      match ps.find? (fun p => ((p.id : ℤ) == id)) with
      | none => (.notFound (ps.map Product.id), ps)
      | some old =>
        match updChecks b with
        | some (VErr.bad m f r) => (.badRequest m f r, ps)
        | some VErr.thrown => (.thrown, ps)
        | none =>
          let merged := sanitizedMerge old b now
          (.ok merged, setFirstById ps id merged)

/-- Outcome of DELETE /api/products/:id. -/
inductive DeleteResult where
  | invalidId (received : String)
  | notFound (availableIds : List Nat)
  | ok (deleted : Product)
  deriving DecidableEq, Repr

/-- DELETE /api/products/:id: id validation, existence check, then removal
of the first matching record; the response carries the removed snapshot. -/
def deleteProduct (ps : List Product) (idStr : String) :
    DeleteResult × List Product :=
  match parseIntStr idStr with
  | none => (.invalidId idStr, ps)
  | some id =>
    if id ≤ 0 then (.invalidId idStr, ps)
    else
      match ps.find? (fun p => ((p.id : ℤ) == id)) with
      | none => (.notFound (ps.map Product.id), ps)
      | some old => (.ok old, removeFirstById ps id)

/-! ## Helper definitions and lemmas shared by the claim theorems -/

/-- A minimal valid create body: a title and a numeric price, every other field absent. -/
def mkCreateBody (t : String) (q : ℚ) : Body :=
  { title := some (.str t), price := some (.num q) }

/-- Every id in the collection is bounded by the maximal id. -/
lemma le_maxIdOf {ps : List Product} {q : Product} (hq : q ∈ ps) : q.id ≤ maxIdOf ps := by
  induction ps with
  | nil => cases hq
  | cons p rest ih =>
    rcases List.mem_cons.mp hq with h | h
    · subst h; exact le_max_left _ _
    · exact le_trans (ih h) (le_max_right _ _)

/-- Scanning an appended list skips a first segment with no match. -/
lemma find?_append_of_none {f : Product → Bool} {l1 l2 : List Product}
    (h : l1.find? f = none) : (l1 ++ l2).find? f = l2.find? f := by
  induction l1 with
  | nil => simp
  | cons a t ih =>
    by_cases hfa : f a
    · rw [List.find?_cons_of_pos _ hfa] at h; exact absurd h (by simp)
    · rw [List.find?_cons_of_neg _ hfa] at h
      rw [List.cons_append, List.find?_cons_of_neg _ hfa]
      exact ih h

/-- When validation passes, create appends the built record and returns it. -/
lemma createProduct_checks_none {ps : List Product} {b : Body} {now : Nat}
    (h : createChecks b = none) :
    createProduct ps b now
      = (.created (buildProduct ps b now), ps ++ [buildProduct ps b now]) := by
  unfold createProduct; rw [h]

/-- When validation fails, create returns the 400 body and leaves the store unchanged. -/
lemma createProduct_checks_bad {ps : List Product} {b : Body} {now : Nat}
    {m f : String} {r : Option FieldVal}
    (h : createChecks b = some (.bad m f r)) :
    createProduct ps b now = (.badRequest m f r, ps) := by
  unfold createProduct; rw [h]

/-- When the id is valid, the record exists and field validation passes, update stores and returns the sanitized merge. -/
lemma updateProduct_checks_none {ps : List Product} {idStr : String} {b : Body} {now : Nat}
    {i : ℤ} {old : Product}
    (hid : parseIntStr idStr = some i) (hpos : 0 < i)
    (hfind : ps.find? (fun p => ((p.id : ℤ) == i)) = some old)
    (h : updChecks b = none) :
    updateProduct ps idStr b now
      = (.ok (sanitizedMerge old b now), setFirstById ps i (sanitizedMerge old b now)) := by
  unfold updateProduct
  simp only [hid]
  rw [if_neg (not_le.mpr hpos), hfind, h]

/-- When the id is valid and the record exists but a field fails validation, update returns the 400 body and leaves the store unchanged. -/
lemma updateProduct_checks_bad {ps : List Product} {idStr : String} {b : Body} {now : Nat}
    {i : ℤ} {old : Product} {m f : String} {r : Option FieldVal}
    (hid : parseIntStr idStr = some i) (hpos : 0 < i)
    (hfind : ps.find? (fun p => ((p.id : ℤ) == i)) = some old)
    (h : updChecks b = some (.bad m f r)) :
    updateProduct ps idStr b now = (.badRequest m f r, ps) := by
  unfold updateProduct
  simp only [hid]
  rw [if_neg (not_le.mpr hpos), hfind, h]

/-- A string with a nonempty trim is itself nonempty. -/
lemma ne_empty_of_jsTrim {t : String} (ht : jsTrim t ≠ "") : t ≠ "" :=
  fun he => ht (by rw [he]; rfl)

/-- A string title with nonempty trim passes the create-time title check. -/
lemma checkTitleCreate_str_ok {t : String} (ht : jsTrim t ≠ "") :
    checkTitleCreate (some (.str t)) = none := by
  simp [checkTitleCreate, truthyOpt, FieldVal.truthy, ne_empty_of_jsTrim ht, ht]

/-- A nonnegative numeric price passes the create-time price check. -/
lemma checkPriceCreate_num_ok {q : ℚ} (hq : 0 ≤ q) :
    checkPriceCreate (some (.num q)) = none := by
  simp [checkPriceCreate, parseFloatVal, not_lt.mpr hq]

/-- With a valid string title, a nonnegative numeric price and no stock field, create-time validation reduces to the discount and rating checks. -/
lemma createChecks_of_fields {b : Body} {t : String} {q : ℚ}
    (hbt : b.title = some (.str t)) (hbp : b.price = some (.num q))
    (hbs : b.stock = none) (ht : jsTrim t ≠ "") (hq : 0 ≤ q) :
    createChecks b
      = (match checkDiscount b.discountPercentage with
         | some e => some e
         | none => checkRating b.rating) := by
  unfold createChecks
  rw [hbt, checkTitleCreate_str_ok ht, hbp, checkPriceCreate_num_ok hq, hbs]
  rfl

/-- With no title, price or stock in the payload, update-time validation reduces to the discount and rating checks. -/
lemma updChecks_of_fields {b : Body}
    (hbt : b.title = none) (hbp : b.price = none) (hbs : b.stock = none) :
    updChecks b
      = (match checkDiscount b.discountPercentage with
         | some e => some e
         | none => checkRating b.rating) := by
  unfold updChecks
  rw [hbt, hbp, hbs]
  rfl

/-- A numeric discount inside [0, 100] passes the range check. -/
lemma checkDiscount_num_ok {d : ℚ} (h : ¬ (d < 0 ∨ d > 100)) :
    checkDiscount (some (.num d)) = none := by
  simp [checkDiscount, parseFloatVal, h]

/-- A numeric discount outside [0, 100] fails the range check with the InvalidValue body. -/
lemma checkDiscount_num_bad {d : ℚ} (h : d < 0 ∨ d > 100) :
    checkDiscount (some (.num d))
      = some (.bad "Discount percentage must be a number between 0 and 100"
          "discountPercentage" (some (.num d))) := by
  simp [checkDiscount, parseFloatVal, h]

/-- A numeric rating inside [0, 5] passes the range check. -/
lemma checkRating_num_ok {x : ℚ} (h : ¬ (x < 0 ∨ x > 5)) :
    checkRating (some (.num x)) = none := by
  simp [checkRating, parseFloatVal, h]

/-- A numeric rating outside [0, 5] fails the range check with the InvalidValue body. -/
lemma checkRating_num_bad {x : ℚ} (h : x < 0 ∨ x > 5) :
    checkRating (some (.num x))
      = some (.bad "Rating must be a number between 0 and 5" "rating"
          (some (.num x))) := by
  simp [checkRating, parseFloatVal, h]

/-- A create-time title failure names the field title. -/
lemma checkTitleCreate_field {tv : Option FieldVal} {m f : String} {r : Option FieldVal}
    (h : checkTitleCreate tv = some (VErr.bad m f r)) : f = "title" := by
  unfold checkTitleCreate at h
  split at h
  · split at h
    · split at h <;> simp_all
    · simp_all
  · simp_all

/-- A create-time price failure names the field price. -/
lemma checkPriceCreate_field {pv : Option FieldVal} {m f : String} {r : Option FieldVal}
    (h : checkPriceCreate pv = some (VErr.bad m f r)) : f = "price" := by
  unfold checkPriceCreate at h
  split at h <;> try simp_all
  all_goals (split at h <;> simp_all)

/-- A stock failure names the field stock. -/
lemma checkStock_field {sv : Option FieldVal} {m f : String} {r : Option FieldVal}
    (h : checkStock sv = some (VErr.bad m f r)) : f = "stock" := by
  unfold checkStock at h
  split at h <;> try simp_all
  all_goals (split at h <;> simp_all)

/-- A discount failure names the field discountPercentage. -/
lemma checkDiscount_field {dv : Option FieldVal} {m f : String} {r : Option FieldVal}
    (h : checkDiscount dv = some (VErr.bad m f r)) : f = "discountPercentage" := by
  unfold checkDiscount at h
  split at h <;> try simp_all
  all_goals (split at h <;> simp_all)

/-- A rating failure names the field rating. -/
lemma checkRating_field {rv : Option FieldVal} {m f : String} {r : Option FieldVal}
    (h : checkRating rv = some (VErr.bad m f r)) : f = "rating" := by
  unfold checkRating at h
  split at h <;> try simp_all
  all_goals (split at h <;> simp_all)

/-- Every create-time validation failure names one of the five checked fields. -/
lemma createChecks_field {b : Body} {m f : String} {r : Option FieldVal}
    (h : createChecks b = some (VErr.bad m f r)) :
    f = "title" ∨ f = "price" ∨ f = "stock" ∨ f = "discountPercentage" ∨ f = "rating" := by
  unfold createChecks at h
  cases h1 : checkTitleCreate b.title with
  | some e =>
    rw [h1] at h
    simp only [Option.some.injEq] at h
    subst h
    exact Or.inl (checkTitleCreate_field h1)
  | none =>
    rw [h1] at h
    cases h2 : checkPriceCreate b.price with
    | some e =>
      rw [h2] at h
      simp only [Option.some.injEq] at h
      subst h
      exact Or.inr (Or.inl (checkPriceCreate_field h2))
    | none =>
      rw [h2] at h
      cases h3 : checkStock b.stock with
      | some e =>
        rw [h3] at h
        simp only [Option.some.injEq] at h
        subst h
        exact Or.inr (Or.inr (Or.inl (checkStock_field h3)))
      | none =>
        rw [h3] at h
        cases h4 : checkDiscount b.discountPercentage with
        | some e =>
          rw [h4] at h
          simp only [Option.some.injEq] at h
          subst h
          exact Or.inr (Or.inr (Or.inr (Or.inl (checkDiscount_field h4))))
        | none =>
          rw [h4] at h
          exact Or.inr (Or.inr (Or.inr (Or.inr (checkRating_field h))))

/-! ## Claim theorems -/

/-- C1 (amended): after a delete and a subsequent create that passes validation, the id assigned by the create is strictly greater than every id in the live collection at creation time, so live ids stay unique; in particular, when the deleted id was not above every remaining id, it is never reassigned.  The original claim — the new id exceeds every id EVER assigned — is refuted by the counterexample: the next id is computed from the live maximum, so deleting the product with the maximal id recycles that id. -/
theorem C1_ids_fresh_over_live_store (ps : List Product) (idStr : String)
    (d : Product) (ps2 : List Product) (b : Body) (now : Nat)
    (p : Product) (l : List Product)
    (_hdel : deleteProduct ps idStr = (.ok d, ps2))
    (hcre : createProduct ps2 b now = (.created p, l)) :
    (∀ n ∈ ps2.map Product.id, n < p.id) ∧
    (∀ n ∈ ps2.map Product.id, d.id ≤ n → p.id ≠ d.id) := by
  have hid : p.id = (if 0 < ps2.length then maxIdOf ps2 else 0) + 1 := by
    unfold createProduct at hcre
    cases hc : createChecks b with
    | some e => rw [hc] at hcre; cases e <;> simp at hcre
    | none =>
      rw [hc] at hcre
      simp only [Prod.mk.injEq, CreateResult.created.injEq] at hcre
      rw [← hcre.1]; rfl
  have hkey : ∀ n ∈ ps2.map Product.id, n < p.id := by
    intro n hn
    obtain ⟨q, hq, hqn⟩ := List.mem_map.mp hn
    have hpos : 0 < ps2.length := List.length_pos.mpr (List.ne_nil_of_mem hq)
    rw [hid, if_pos hpos]
    exact Nat.lt_succ_of_le (hqn ▸ le_maxIdOf hq)
  refine ⟨hkey, fun n hn hd => ?_⟩
  have := lt_of_le_of_lt hd (hkey n hn)
  omega

/-- Witness for C1: deleting seed product 2 and creating yields id 6, above every remaining id and different from the deleted id 2. -/
theorem C1_witness :
    5 < (buildProduct (removeFirstById products 2) (mkCreateBody "Replacement" 1) 0).id ∧
    (buildProduct (removeFirstById products 2) (mkCreateBody "Replacement" 1) 0).id
      ≠ (products.get ⟨1, by decide⟩).id := by
  obtain ⟨h1, h2⟩ :=
    C1_ids_fresh_over_live_store products "2" (products.get ⟨1, by decide⟩)
      (removeFirstById products 2) (mkCreateBody "Replacement" 1) 0
      (buildProduct (removeFirstById products 2) (mkCreateBody "Replacement" 1) 0)
      ((removeFirstById products 2) ++
        [buildProduct (removeFirstById products 2) (mkCreateBody "Replacement" 1) 0])
      (by with_unfolding_all rfl) (by with_unfolding_all rfl)
  exact ⟨h1 5 (by decide), h2 5 (by decide) (by decide)⟩

/-- Counterexample to C1 as stated: on the seed store, deleting product 5 (whose id 5 was assigned before) and then performing a valid create assigns id 5 again, so the created id is not strictly greater than every id ever assigned — the deleted maximal id is recycled. -/
theorem C1_counterexample :
    (deleteProduct products "5").1 = DeleteResult.ok (products.get ⟨4, by decide⟩) ∧
    (products.get ⟨4, by decide⟩).id = 5 ∧
    (createProduct (deleteProduct products "5").2 (mkCreateBody "New" 1) 0).1
      = CreateResult.created
          (buildProduct (deleteProduct products "5").2 (mkCreateBody "New" 1) 0) ∧
    (buildProduct (deleteProduct products "5").2 (mkCreateBody "New" 1) 0).id = 5 := by
  refine ⟨?_, ?_, ?_, ?_⟩ <;> with_unfolding_all rfl

/-- C2: every create that passes validation returns a record whose id is max(existing ids) + 1 (1 on the empty collection), whose createdAt and updatedAt are both the current instant (hence equal), which is appended to the store, and whose omitted optional fields carry their defaults: description, brand, category and thumbnail the empty string, discountPercentage, rating and stock zero, images the empty sequence. -/
theorem C2_create_result_fields (ps : List Product) (b : Body) (now : Nat)
    (p : Product) (l : List Product)
    (h : createProduct ps b now = (.created p, l)) :
    p.id = (if 0 < ps.length then maxIdOf ps else 0) + 1 ∧
    p.createdAt = some now ∧
    p.updatedAt = some now ∧
    l = ps ++ [p] ∧
    (b.description = none → p.description = .str "") ∧
    (b.discountPercentage = none → p.discountPercentage = 0) ∧
    (b.rating = none → p.rating = 0) ∧
    (b.stock = none → p.stock = 0) ∧
    (b.brand = none → p.brand = .str "") ∧
    (b.category = none → p.category = .str "") ∧
    (b.thumbnail = none → p.thumbnail = .str "") ∧
    (b.images = none → p.images = []) := by
  unfold createProduct at h
  cases hc : createChecks b with
  | some e =>
    rw [hc] at h
    cases e <;> simp at h
  | none =>
    rw [hc] at h
    simp only [Prod.mk.injEq, CreateResult.created.injEq] at h
    obtain ⟨hp, hl⟩ := h
    subst hp
    refine ⟨rfl, rfl, rfl, hl.symm, ?_, ?_, ?_, ?_, ?_, ?_, ?_, ?_⟩ <;>
      intro hx <;>
      simp [buildProduct, jsOrEmptyStr, jsTruthyFloat, jsTruthyInt, hx]

/-- Witness for C2: creating a minimal body on the empty store yields id 1, equal timestamps and all defaults. -/
theorem C2_witness :
    (buildProduct [] (mkCreateBody "A" 2) 0).id = 1 ∧
    (buildProduct [] (mkCreateBody "A" 2) 0).createdAt = some 0 ∧
    (buildProduct [] (mkCreateBody "A" 2) 0).updatedAt = some 0 ∧
    (buildProduct [] (mkCreateBody "A" 2) 0).description = FieldVal.str "" ∧
    (buildProduct [] (mkCreateBody "A" 2) 0).discountPercentage = 0 ∧
    (buildProduct [] (mkCreateBody "A" 2) 0).rating = 0 ∧
    (buildProduct [] (mkCreateBody "A" 2) 0).stock = 0 ∧
    (buildProduct [] (mkCreateBody "A" 2) 0).brand = FieldVal.str "" ∧
    (buildProduct [] (mkCreateBody "A" 2) 0).category = FieldVal.str "" ∧
    (buildProduct [] (mkCreateBody "A" 2) 0).thumbnail = FieldVal.str "" ∧
    (buildProduct [] (mkCreateBody "A" 2) 0).images = [] := by
  obtain ⟨h1, h2, h3, _h4, h5, h6, h7, h8, h9, h10, h11, h12⟩ :=
    C2_create_result_fields [] (mkCreateBody "A" 2) 0
      (buildProduct [] (mkCreateBody "A" 2) 0)
      ([buildProduct [] (mkCreateBody "A" 2) 0]) (by with_unfolding_all rfl)
  exact ⟨h1.trans rfl, h2, h3, h5 rfl, h6 rfl, h7 rfl, h8 rfl, h9 rfl, h10 rfl,
    h11 rfl, h12 rfl⟩

/-- C3: a successful update merges only the keys present in the payload onto the found record: id and createdAt are untouched, updatedAt is refreshed, every field absent from the payload is byte-identical to the old record, and the empty payload changes updatedAt alone. -/
theorem C3_update_merge_frame (ps : List Product) (idStr : String) (b : Body) (now : Nat)
    (p2 : Product) (l2 : List Product) (i : ℤ) (old : Product)
    (hid : parseIntStr idStr = some i)
    (hfind : ps.find? (fun p => ((p.id : ℤ) == i)) = some old)
    (h : updateProduct ps idStr b now = (.ok p2, l2)) :
    p2.id = old.id ∧ p2.createdAt = old.createdAt ∧ p2.updatedAt = some now ∧
    (b.title = none → p2.title = old.title) ∧
    (b.description = none → p2.description = old.description) ∧
    (b.price = none → p2.price = old.price) ∧
    (b.discountPercentage = none → p2.discountPercentage = old.discountPercentage) ∧
    (b.rating = none → p2.rating = old.rating) ∧
    (b.stock = none → p2.stock = old.stock) ∧
    (b.brand = none → p2.brand = old.brand) ∧
    (b.category = none → p2.category = old.category) ∧
    (b.thumbnail = none → p2.thumbnail = old.thumbnail) ∧
    (b.images = none → p2.images = old.images) ∧
    (b = emptyBody → p2 = { old with updatedAt := some now }) := by
  unfold updateProduct at h
  simp only [hid] at h
  by_cases hle : i ≤ 0
  · simp [hle] at h
  · simp only [if_neg hle, hfind] at h
    cases hc : updChecks b with
    | some e => rw [hc] at h; cases e <;> simp at h
    | none =>
      rw [hc] at h
      simp only [Prod.mk.injEq, UpdateResult.ok.injEq] at h
      obtain ⟨hp, hl⟩ := h
      subst hp
      refine ⟨rfl, rfl, rfl, ?_, ?_, ?_, ?_, ?_, ?_, ?_, ?_, ?_, ?_, ?_⟩
      all_goals intro hx
      all_goals try (subst hx; rfl)
      all_goals simp [sanitizedMerge, hx]

/-- Witness for C3: updating seed product 1 with the empty payload changes only updatedAt. -/
theorem C3_witness :
    sanitizedMerge (products.get ⟨0, by decide⟩) emptyBody 7
      = { products.get ⟨0, by decide⟩ with updatedAt := some 7 } := by
  obtain ⟨_, _, _, _, _, _, _, _, _, _, _, _, _, hlast⟩ :=
    C3_update_merge_frame products "1" emptyBody 7
      (sanitizedMerge (products.get ⟨0, by decide⟩) emptyBody 7)
      (setFirstById products 1 (sanitizedMerge (products.get ⟨0, by decide⟩) emptyBody 7))
      1 (products.get ⟨0, by decide⟩)
      (by decide) (by with_unfolding_all rfl) (by with_unfolding_all rfl)
  exact hlast rfl

/-- C4: for get-by-id, update and delete, an id path segment that does not parse as an integer or parses to a value that is not positive yields the InvalidId 400 response carrying the raw segment — never a 404 — and leaves the store unchanged. -/
theorem C4_invalid_id_rejected (ps : List Product) (idStr : String) (b : Body) (now : Nat)
    (hbad : parseIntStr idStr = none ∨ ∃ i, parseIntStr idStr = some i ∧ i ≤ 0) :
    getById ps idStr = .invalidId idStr ∧
    updateProduct ps idStr b now = (.invalidId idStr, ps) ∧
    deleteProduct ps idStr = (.invalidId idStr, ps) := by
  unfold getById updateProduct deleteProduct
  rcases hbad with h | ⟨i, hi, hle⟩
  · simp [h]
  · simp [hi, hle]

/-- Witness for C4: the non-numeric segment abc and the negative segment -1 both give InvalidId on all three routes over the seed store. -/
theorem C4_witness :
    (getById products "abc" = .invalidId "abc" ∧
     updateProduct products "abc" emptyBody 0 = (.invalidId "abc", products) ∧
     deleteProduct products "abc" = (.invalidId "abc", products)) ∧
    (getById products "-1" = .invalidId "-1" ∧
     updateProduct products "-1" emptyBody 0 = (.invalidId "-1", products) ∧
     deleteProduct products "-1" = (.invalidId "-1", products)) :=
  ⟨C4_invalid_id_rejected products "abc" emptyBody 0 (Or.inl (by decide)),
   C4_invalid_id_rejected products "-1" emptyBody 0 (Or.inr ⟨-1, by decide, by decide⟩)⟩

/-- C5 (amended): on create (with the title check passing), a price that is absent or explicitly null yields the MissingField 400 body (message Price is required, field price, no received value), while a present non-null price that does not parse as a number that is at least 0 yields the InvalidValue 400 body carrying field price and the raw received value; price 0 is accepted by both create and update; and PUT /api/products/1 with price -10 yields the 400 body with field price and received -10.  The original claim — that EVERY present non-parsing price yields InvalidValue with the received value — is refuted by the explicit-null counterexample. -/
theorem C5_price_validation :
    (∀ ps b now, checkTitleCreate b.title = none →
      (b.price = none ∨ b.price = some FieldVal.null) →
      createProduct ps b now = (.badRequest "Price is required" "price" none, ps)) ∧
    (∀ ps b now v, checkTitleCreate b.title = none →
      b.price = some v → v ≠ FieldVal.null →
      (parseFloatVal v = none ∨ ∃ x, parseFloatVal v = some x ∧ x < 0) →
      createProduct ps b now
        = (.badRequest "Price must be a valid positive number" "price" (some v), ps)) ∧
    (∀ ps b now, checkTitleCreate b.title = none →
      b.price = some (FieldVal.num 0) →
      checkStock b.stock = none → checkDiscount b.discountPercentage = none →
      checkRating b.rating = none →
      (createProduct ps b now).1.isCreated = true) ∧
    (∀ ps idStr b now i old, parseIntStr idStr = some i → 0 < i →
      ps.find? (fun p => ((p.id : ℤ) == i)) = some old →
      checkTitleUpdate b.title = none →
      b.price = some (FieldVal.num 0) →
      checkStock b.stock = none → checkDiscount b.discountPercentage = none →
      checkRating b.rating = none →
      (updateProduct ps idStr b now).1.isOk = true) ∧
    (∀ now, updateProduct products "1" { emptyBody with price := some (.num (-10)) } now
      = (.badRequest "Price must be a valid positive number" "price"
          (some (.num (-10))), products)) := by
  refine ⟨?_, ?_, ?_, ?_, ?_⟩
  · intro ps b now htitle hp
    refine createProduct_checks_bad ?_
    unfold createChecks
    rw [htitle]
    rcases hp with h | h <;> rw [h] <;> rfl
  · intro ps b now v htitle hv hnull hbad
    refine createProduct_checks_bad ?_
    unfold createChecks
    rw [htitle, hv]
    have hpc : checkPriceCreate (some v)
        = some (.bad "Price must be a valid positive number" "price" (some v)) := by
      rcases hbad with hn | ⟨x, hx, hlt⟩
      · cases v with
        | null => exact absurd rfl hnull
        | str s => simp [checkPriceCreate, hn]
        | num a => simp [checkPriceCreate, hn]
        | bool a => simp [checkPriceCreate, hn]
        | arr xs => simp [checkPriceCreate, hn]
      · cases v with
        | null => exact absurd rfl hnull
        | str s => simp [checkPriceCreate, hx, hlt]
        | num a => simp [checkPriceCreate, hx, hlt]
        | bool a => simp [checkPriceCreate, hx, hlt]
        | arr xs => simp [checkPriceCreate, hx, hlt]
    rw [hpc]
  · intro ps b now htitle hprice hstock hdisc hrat
    have hc : createChecks b = none := by
      unfold createChecks
      rw [htitle, hprice, checkPriceCreate_num_ok le_rfl, hstock, hdisc, hrat]
    rw [createProduct_checks_none hc]
    rfl
  · intro ps idStr b now i old hid hpos hfind htitle hprice hstock hdisc hrat
    have hpu : checkPriceUpdate (some (FieldVal.num 0)) = none := by
      simp [checkPriceUpdate, parseFloatVal]
    have hc : updChecks b = none := by
      unfold updChecks
      rw [htitle, hprice, hpu, hstock, hdisc, hrat]
    rw [updateProduct_checks_none hid hpos hfind hc]
    rfl
  · intro now
    with_unfolding_all rfl

/-- Witness for C5: concrete instances of each conjunct over the empty and the seed store. -/
theorem C5_witness :
    (createProduct [] { emptyBody with title := some (.str "T") } 0
      = (.badRequest "Price is required" "price" none, [])) ∧
    (createProduct []
        { emptyBody with title := some (.str "T"), price := some (.str "abc") } 0
      = (.badRequest "Price must be a valid positive number" "price"
          (some (.str "abc")), [])) ∧
    ((createProduct [] (mkCreateBody "T" 0) 0).1.isCreated = true) ∧
    ((updateProduct products "1" { emptyBody with price := some (.num 0) } 0).1.isOk = true) ∧
    (updateProduct products "1" { emptyBody with price := some (.num (-10)) } 0
      = (.badRequest "Price must be a valid positive number" "price"
          (some (.num (-10))), products)) := by
  obtain ⟨h1, h2, h3, h4, h5⟩ := C5_price_validation
  refine ⟨?_, ?_, ?_, ?_, h5 0⟩
  · exact h1 [] _ 0 (by with_unfolding_all rfl) (Or.inl rfl)
  · exact h2 [] _ 0 (.str "abc") (by with_unfolding_all rfl) rfl (by decide)
      (Or.inl (by with_unfolding_all rfl))
  · exact h3 [] _ 0 (by with_unfolding_all rfl) rfl rfl rfl rfl
  · exact h4 products "1" _ 0 1 (products.get ⟨0, by decide⟩) (by decide) (by decide)
      (by with_unfolding_all rfl) rfl rfl rfl rfl rfl

/-- Counterexample to C5 as stated: an explicit null price is present in the payload and does not parse as a number (parseFloat gives NaN), yet create answers with the MissingField shape — message Price is required, no received value — not with the claimed InvalidValue failure carrying the received value. -/
theorem C5_counterexample :
    parseFloatVal FieldVal.null = none ∧
    createProduct products
        { emptyBody with title := some (.str "X"), price := some FieldVal.null } 0
      = (.badRequest "Price is required" "price" none, products) := by
  constructor
  · rfl
  · with_unfolding_all rfl

/-- C6: on both create and update, discountPercentage 100 and 0 are accepted while 100.0001 and -0.0001 are rejected with the InvalidValue 400 body carrying the field and the received value; likewise rating 5 and 0 are accepted while 5.0001 and -0.0001 are rejected. -/
theorem C6_range_boundaries (ps : List Product) (now : Nat) (t : String) (q : ℚ)
    (idStr : String) (i : ℤ) (old : Product)
    (ht : jsTrim t ≠ "") (hq : 0 ≤ q)
    (hid : parseIntStr idStr = some i) (hpos : 0 < i)
    (hfind : ps.find? (fun p => ((p.id : ℤ) == i)) = some old) :
    ((createProduct ps { mkCreateBody t q with discountPercentage := some (.num 100) } now).1.isCreated = true) ∧
    ((createProduct ps { mkCreateBody t q with discountPercentage := some (.num 0) } now).1.isCreated = true) ∧
    ((createProduct ps { mkCreateBody t q with discountPercentage := some (.num (1000001/10000)) } now).1
      = .badRequest "Discount percentage must be a number between 0 and 100"
          "discountPercentage" (some (.num (1000001/10000)))) ∧
    ((createProduct ps { mkCreateBody t q with discountPercentage := some (.num (-1/10000)) } now).1
      = .badRequest "Discount percentage must be a number between 0 and 100"
          "discountPercentage" (some (.num (-1/10000)))) ∧
    ((createProduct ps { mkCreateBody t q with rating := some (.num 5) } now).1.isCreated = true) ∧
    ((createProduct ps { mkCreateBody t q with rating := some (.num 0) } now).1.isCreated = true) ∧
    ((createProduct ps { mkCreateBody t q with rating := some (.num (50001/10000)) } now).1
      = .badRequest "Rating must be a number between 0 and 5" "rating"
          (some (.num (50001/10000)))) ∧
    ((createProduct ps { mkCreateBody t q with rating := some (.num (-1/10000)) } now).1
      = .badRequest "Rating must be a number between 0 and 5" "rating"
          (some (.num (-1/10000)))) ∧
    ((updateProduct ps idStr { emptyBody with discountPercentage := some (.num 100) } now).1.isOk = true) ∧
    ((updateProduct ps idStr { emptyBody with discountPercentage := some (.num 0) } now).1.isOk = true) ∧
    ((updateProduct ps idStr { emptyBody with discountPercentage := some (.num (1000001/10000)) } now).1
      = .badRequest "Discount percentage must be a number between 0 and 100"
          "discountPercentage" (some (.num (1000001/10000)))) ∧
    ((updateProduct ps idStr { emptyBody with discountPercentage := some (.num (-1/10000)) } now).1
      = .badRequest "Discount percentage must be a number between 0 and 100"
          "discountPercentage" (some (.num (-1/10000)))) ∧
    ((updateProduct ps idStr { emptyBody with rating := some (.num 5) } now).1.isOk = true) ∧
    ((updateProduct ps idStr { emptyBody with rating := some (.num 0) } now).1.isOk = true) ∧
    ((updateProduct ps idStr { emptyBody with rating := some (.num (50001/10000)) } now).1
      = .badRequest "Rating must be a number between 0 and 5" "rating"
          (some (.num (50001/10000)))) ∧
    ((updateProduct ps idStr { emptyBody with rating := some (.num (-1/10000)) } now).1
      = .badRequest "Rating must be a number between 0 and 5" "rating"
          (some (.num (-1/10000)))) := by
  refine ⟨?_, ?_, ?_, ?_, ?_, ?_, ?_, ?_, ?_, ?_, ?_, ?_, ?_, ?_, ?_, ?_⟩
  · rw [createProduct_checks_none (by
      rw [createChecks_of_fields rfl rfl rfl ht hq, checkDiscount_num_ok (by norm_num)]; try rfl)]
    try rfl
  · rw [createProduct_checks_none (by
      rw [createChecks_of_fields rfl rfl rfl ht hq, checkDiscount_num_ok (by norm_num)]; try rfl)]
    try rfl
  · rw [createProduct_checks_bad (by
      rw [createChecks_of_fields rfl rfl rfl ht hq, checkDiscount_num_bad (by norm_num)]; try rfl)]
    try rfl
  · rw [createProduct_checks_bad (by
      rw [createChecks_of_fields rfl rfl rfl ht hq, checkDiscount_num_bad (by norm_num)]; try rfl)]
    try rfl
  · rw [createProduct_checks_none (by
      rw [createChecks_of_fields rfl rfl rfl ht hq, checkRating_num_ok (by norm_num)]; try rfl)]
    try rfl
  · rw [createProduct_checks_none (by
      rw [createChecks_of_fields rfl rfl rfl ht hq, checkRating_num_ok (by norm_num)]; try rfl)]
    try rfl
  · rw [createProduct_checks_bad (by
      rw [createChecks_of_fields rfl rfl rfl ht hq, checkRating_num_bad (by norm_num)]; try rfl)]
    try rfl
  · rw [createProduct_checks_bad (by
      rw [createChecks_of_fields rfl rfl rfl ht hq, checkRating_num_bad (by norm_num)]; try rfl)]
    try rfl
  · rw [updateProduct_checks_none hid hpos hfind (by
      rw [updChecks_of_fields rfl rfl rfl, checkDiscount_num_ok (by norm_num)]; try rfl)]
    try rfl
  · rw [updateProduct_checks_none hid hpos hfind (by
      rw [updChecks_of_fields rfl rfl rfl, checkDiscount_num_ok (by norm_num)]; try rfl)]
    try rfl
  · rw [updateProduct_checks_bad hid hpos hfind (by
      rw [updChecks_of_fields rfl rfl rfl, checkDiscount_num_bad (by norm_num)]; try rfl)]
    try rfl
  · rw [updateProduct_checks_bad hid hpos hfind (by
      rw [updChecks_of_fields rfl rfl rfl, checkDiscount_num_bad (by norm_num)]; try rfl)]
    try rfl
  · rw [updateProduct_checks_none hid hpos hfind (by
      rw [updChecks_of_fields rfl rfl rfl, checkRating_num_ok (by norm_num)]; try rfl)]
    try rfl
  · rw [updateProduct_checks_none hid hpos hfind (by
      rw [updChecks_of_fields rfl rfl rfl, checkRating_num_ok (by norm_num)]; try rfl)]
    try rfl
  · rw [updateProduct_checks_bad hid hpos hfind (by
      rw [updChecks_of_fields rfl rfl rfl, checkRating_num_bad (by norm_num)]; try rfl)]
    try rfl
  · rw [updateProduct_checks_bad hid hpos hfind (by
      rw [updChecks_of_fields rfl rfl rfl, checkRating_num_bad (by norm_num)]; try rfl)]
    try rfl

/-- Witness for C6: the sixteen boundary cases at a concrete valid title, price and seed product 1. -/
theorem C6_witness :
    ((createProduct products { mkCreateBody "X" 1 with discountPercentage := some (.num 100) } 0).1.isCreated = true) ∧
    ((createProduct products { mkCreateBody "X" 1 with discountPercentage := some (.num 0) } 0).1.isCreated = true) ∧
    ((createProduct products { mkCreateBody "X" 1 with discountPercentage := some (.num (1000001/10000)) } 0).1
      = .badRequest "Discount percentage must be a number between 0 and 100"
          "discountPercentage" (some (.num (1000001/10000)))) ∧
    ((createProduct products { mkCreateBody "X" 1 with discountPercentage := some (.num (-1/10000)) } 0).1
      = .badRequest "Discount percentage must be a number between 0 and 100"
          "discountPercentage" (some (.num (-1/10000)))) ∧
    ((createProduct products { mkCreateBody "X" 1 with rating := some (.num 5) } 0).1.isCreated = true) ∧
    ((createProduct products { mkCreateBody "X" 1 with rating := some (.num 0) } 0).1.isCreated = true) ∧
    ((createProduct products { mkCreateBody "X" 1 with rating := some (.num (50001/10000)) } 0).1
      = .badRequest "Rating must be a number between 0 and 5" "rating" (some (.num (50001/10000)))) ∧
    ((createProduct products { mkCreateBody "X" 1 with rating := some (.num (-1/10000)) } 0).1
      = .badRequest "Rating must be a number between 0 and 5" "rating" (some (.num (-1/10000)))) ∧
    ((updateProduct products "1" { emptyBody with discountPercentage := some (.num 100) } 0).1.isOk = true) ∧
    ((updateProduct products "1" { emptyBody with discountPercentage := some (.num 0) } 0).1.isOk = true) ∧
    ((updateProduct products "1" { emptyBody with discountPercentage := some (.num (1000001/10000)) } 0).1
      = .badRequest "Discount percentage must be a number between 0 and 100"
          "discountPercentage" (some (.num (1000001/10000)))) ∧
    ((updateProduct products "1" { emptyBody with discountPercentage := some (.num (-1/10000)) } 0).1
      = .badRequest "Discount percentage must be a number between 0 and 100"
          "discountPercentage" (some (.num (-1/10000)))) ∧
    ((updateProduct products "1" { emptyBody with rating := some (.num 5) } 0).1.isOk = true) ∧
    ((updateProduct products "1" { emptyBody with rating := some (.num 0) } 0).1.isOk = true) ∧
    ((updateProduct products "1" { emptyBody with rating := some (.num (50001/10000)) } 0).1
      = .badRequest "Rating must be a number between 0 and 5" "rating" (some (.num (50001/10000)))) ∧
    ((updateProduct products "1" { emptyBody with rating := some (.num (-1/10000)) } 0).1
      = .badRequest "Rating must be a number between 0 and 5" "rating" (some (.num (-1/10000)))) :=
  C6_range_boundaries products 0 "X" 1 "1" 1 (products.get ⟨0, by decide⟩)
    (by decide) (by norm_num) (by decide) (by decide) (by with_unfolding_all rfl)

/-- C7 (amended): validation stops at the first failing field and reports exactly one failure; a create whose payload has no title answers with the single title failure — message and field only — regardless of every other field, so a payload with only a description reports field title (title is checked before price).  The original claim that every failure also carries the raw received value is refuted by the counterexample: missing-field failures carry no received value. -/
theorem C7_title_checked_first (ps : List Product) (b : Body) (now : Nat)
    (htitle : b.title = none) :
    createProduct ps b now
      = (.badRequest "Title is required and cannot be empty" "title" none, ps) := by
  unfold createProduct createChecks checkTitleCreate
  simp [htitle, truthyOpt]

/-- Witness for C7: a body carrying only a description fails on the title field. -/
theorem C7_witness :
    createProduct [] { emptyBody with description := some (.str "x") } 0
      = (.badRequest "Title is required and cannot be empty" "title" none, []) :=
  C7_title_checked_first [] { emptyBody with description := some (.str "x") } 0 rfl

/-- Counterexample to C7 as stated: the claim requires every reported failure to carry the raw received value, but the create with only a description answers with message and field title and NO received value (the missing-field branch builds no received entry). -/
theorem C7_counterexample :
    createProduct products { emptyBody with description := some (.str "x") } 0
      = (.badRequest "Title is required and cannot be empty" "title" none, products) := by
  with_unfolding_all rfl

/-- C8: creating a record that passes validation and then fetching the returned id yields exactly the record the create returned. -/
theorem C8_create_get_roundtrip (ps : List Product) (b : Body) (now : Nat)
    (p : Product) (l : List Product)
    (h : createProduct ps b now = (.created p, l))
    (idStr : String) (hid : parseIntStr idStr = some (p.id : ℤ)) :
    getById l idStr = .ok p := by
  unfold createProduct at h
  cases hc : createChecks b with
  | some e => rw [hc] at h; cases e <;> simp at h
  | none =>
    rw [hc] at h
    simp only [Prod.mk.injEq, CreateResult.created.injEq] at h
    obtain ⟨hp, hl⟩ := h
    subst hl
    have hpid : p.id = (if 0 < ps.length then maxIdOf ps else 0) + 1 := by
      rw [← hp]; rfl
    have h0 : 0 < p.id := by rw [hpid]; exact Nat.succ_pos _
    unfold getById
    simp only [hid]
    rw [if_neg (by omega : ¬ ((p.id : ℤ) ≤ 0))]
    have hnone : ps.find? (fun q => ((q.id : ℤ) == (p.id : ℤ))) = none := by
      apply List.find?_eq_none.mpr
      intro q hq
      have h1 : q.id ≤ maxIdOf ps := le_maxIdOf hq
      have h2 : 0 < ps.length := List.length_pos.mpr (List.ne_nil_of_mem hq)
      have hne : q.id ≠ p.id := by rw [hpid, if_pos h2]; omega
      simp only [beq_iff_eq, Nat.cast_inj]
      exact hne
    rw [find?_append_of_none hnone, hp]
    simp [List.find?]

/-- Witness for C8: creating over the seed store yields id 6 and GET /api/products/6 returns the created record. -/
theorem C8_witness :
    getById (products ++ [buildProduct products (mkCreateBody "A" 2) 9]) "6"
      = .ok (buildProduct products (mkCreateBody "A" 2) 9) := by
  have h :=
    C8_create_get_roundtrip products (mkCreateBody "A" 2) 9
      (buildProduct products (mkCreateBody "A" 2) 9)
      (products ++ [buildProduct products (mkCreateBody "A" 2) 9])
      (by with_unfolding_all rfl) "6" (by with_unfolding_all rfl)
  exact h

/-- C9: a create whose images field is present but not an array is not rejected — no validation failure ever names the field images, the request succeeds when the other fields are valid, and the stored record carries the empty images sequence. -/
theorem C9_images_non_array_coerced :
    (∀ ps b now p l v, createProduct ps b now = (.created p, l) →
      b.images = some v → (∀ xs, v ≠ FieldVal.arr xs) → p.images = []) ∧
    (∀ ps b now m f r l, createProduct ps b now = (.badRequest m f r, l) →
      f ≠ "images") ∧
    (∀ ps now t q v, jsTrim t ≠ "" → 0 ≤ q → (∀ xs, v ≠ FieldVal.arr xs) →
      (createProduct ps
        { title := some (.str t), price := some (.num q), images := some v } now).1.isCreated
        = true) := by
  refine ⟨?_, ?_, ?_⟩
  · intro ps b now p l v h himg hv
    unfold createProduct at h
    cases hc : createChecks b with
    | some e => rw [hc] at h; cases e <;> simp at h
    | none =>
      rw [hc] at h
      simp only [Prod.mk.injEq, CreateResult.created.injEq] at h
      rw [← h.1]
      show (match b.images with | some (.arr xs) => xs | _ => ([] : List String)) = []
      rw [himg]
      cases v with
      | arr xs => exact absurd rfl (hv xs)
      | str s => rfl
      | num a => rfl
      | bool a => rfl
      | null => rfl
  · intro ps b now m f r l h
    unfold createProduct at h
    cases hc : createChecks b with
    | some e =>
      rw [hc] at h
      cases e with
      | thrown => simp at h
      | bad m1 f1 r1 =>
        simp only [Prod.mk.injEq, CreateResult.badRequest.injEq] at h
        obtain ⟨⟨hm, hf, hr⟩, _⟩ := h
        subst hf
        rcases createChecks_field hc with h | h | h | h | h <;> subst h <;> decide
    | none => rw [hc] at h; simp at h
  · intro ps now t q v ht hq hv
    have hc : createChecks { title := some (.str t), price := some (.num q), images := some v } = none := by
      rw [createChecks_of_fields rfl rfl rfl ht hq]
      rfl
    rw [createProduct_checks_none hc]
    rfl

/-- Witness for C9: a string-valued images field is silently replaced by the empty sequence on a successful create. -/
theorem C9_witness :
    (buildProduct [] { title := some (.str "T"), price := some (.num 1), images := some (.str "nope") } 0).images = [] ∧
    ("title" : String) ≠ "images" ∧
    (createProduct [] { title := some (.str "T"), price := some (.num 1), images := some (.str "nope") } 0).1.isCreated = true := by
  obtain ⟨h1, h2, h3⟩ := C9_images_non_array_coerced
  refine ⟨?_, ?_, ?_⟩
  · exact h1 [] { title := some (.str "T"), price := some (.num 1), images := some (.str "nope") } 0 _ _ (.str "nope")
      (by with_unfolding_all rfl) rfl (fun xs h => nomatch h)
  · exact h2 [] emptyBody 0 _ _ _ [] (by with_unfolding_all rfl)
  · exact h3 [] 0 "T" 1 (.str "nope") (by decide) (by norm_num)
      (fun xs h => nomatch h)

/-- C10: every update request that does not reach the 200 outcome — invalid id, not found, field validation failure, or a thrown TypeError — leaves the products collection exactly as it was: all validation completes before any mutation. -/
theorem C10_failed_update_preserves_store (ps : List Product) (idStr : String)
    (b : Body) (now : Nat)
    (hfail : (updateProduct ps idStr b now).1.isOk = false) :
    (updateProduct ps idStr b now).2 = ps := by
  unfold updateProduct at hfail ⊢
  cases hp : parseIntStr idStr with
  | none => simp [hp]
  | some id =>
    simp only [hp] at hfail ⊢
    by_cases hid : id ≤ 0
    · simp [hid]
    · simp only [if_neg hid] at hfail ⊢
      cases hf : ps.find? (fun p => ((p.id : ℤ) == id)) with
      | none => simp [hf]
      | some old =>
        simp only [hf] at hfail ⊢
        cases hc : updChecks b with
        | none =>
          simp only [hc, UpdateResult.isOk] at hfail
          exact Bool.noConfusion hfail
        | some e => cases e <;> simp [hc]

/-- Witness for C10: the rejected update with the negative price leaves the seed store unchanged. -/
theorem C10_witness :
    (updateProduct products "1" { emptyBody with price := some (.num (-10)) } 0).2
      = products :=
  C10_failed_update_preserves_store products "1"
    { emptyBody with price := some (.num (-10)) } 0 (by with_unfolding_all rfl)
